import Mathlib

/-!
Shallow embedding of the core of `cinatra::coro_http_server`
(src/include/ylt/thirdparty/cinatra/coro_http_server.hpp) and proofs about it.

The byte strings manipulated by the C++ code are modelled as Lean `String`
(header construction) and `List Char` (wire payloads and file contents); the
code only ever concatenates and slices them, so one `Char` stands for one
byte.  Collaborators that live outside the file under scrutiny (the request
parser, the connection's write primitives, the coroutine file) are modelled
through the interfaces the spec enumerates in its section 6: a write becomes
an abstract wire event, a file read yields the next slice of the file's
contents, and scripted failure lists (`readErrs`, `writeRes`) let theorems
quantify over the outcomes the environment can produce.
-/

namespace Cinatra

/-- Constant CRCF from cinatra's define.h (quoted verbatim in the spec, section 4.4). -/
def CRCF : String := "\r\n"

/-- Constant TWO_CRCF from cinatra's define.h (spec section 4.4). -/
def TWO_CRCF : String := "\r\n\r\n"

/-- Modelled from the spec: define.h is not under src/.  `BOUNDARY` is "a fixed
token defined by the framework" (spec section 4.4); its exact text is immaterial
to every claim, only its length enters the Content-Length arithmetic. -/
def BOUNDARY : String := "CinatraBoundary2B8FAF4A80EDB307"

/-- Modelled from the spec: define.h is not under src/.  `MULTIPART_END` is
"the closing multipart boundary" (spec section 4.4), the token `--<BOUNDARY>--`
preceded by the CRLF that closes the final part; this is the one shape that
makes the spec's own Content-Length accounting in section 4.4 (one CRLF per
part, plus `BOUNDARY` plus 4 terminating bytes) add up, and it matches the
RFC 2046 close delimiter. -/
def MULTIPART_END : String := CRCF ++ "--" ++ BOUNDARY ++ "--"

/-- The `file_resp_format_type` enum of the source. -/
inductive FileRespFormat where
  | chunked
  | range
deriving DecidableEq, Repr

/-- One observable action performed by a handler on its connection, matching
the connection interface of spec section 6: `write_data`/`async_write`
(gather write of one or more buffers), `begin_chunked`, `write_chunked`,
`end_chunked` (the terminating zero-length chunk), and `reply`. -/
inductive WireEvent where
  | write (bufs : List (List Char))
  | beginChunked
  | chunk (s : List Char)
  | endChunked
  | reply (status : Nat)
deriving DecidableEq, Repr

/-- Pop the next scripted result; an exhausted script means success. -/
def nextRes : List Bool → Bool × List Bool
  | [] => (true, [])
  | b :: r => (b, r)

/-- A connection as seen by a handler: the ordered list of write calls it has
issued, plus the environment's scripted answers to those calls (`true` =
the write succeeded; an exhausted script means every later write succeeds). -/
structure Conn where
  events : List WireEvent
  writeRes : List Bool
deriving DecidableEq, Repr

def Conn.write_data (c : Conn) (s : List Char) : Bool × Conn :=
  let (ok, rest) := nextRes c.writeRes
  (ok, ⟨c.events ++ [.write [s]], rest⟩)

/-- `async_write` of a two-buffer gather array, as used at source lines 315-317
and 712-714. -/
def Conn.async_write2 (c : Conn) (a b : List Char) : Bool × Conn :=
  let (ok, rest) := nextRes c.writeRes
  (ok, ⟨c.events ++ [.write [a, b]], rest⟩)

def Conn.begin_chunked (c : Conn) : Bool × Conn :=
  let (ok, rest) := nextRes c.writeRes
  (ok, ⟨c.events ++ [.beginChunked], rest⟩)

def Conn.write_chunked (c : Conn) (s : List Char) : Bool × Conn :=
  let (ok, rest) := nextRes c.writeRes
  (ok, ⟨c.events ++ [.chunk s], rest⟩)

/-- The source ignores the result of `end_chunked` (line 358). -/
def Conn.end_chunked (c : Conn) : Conn :=
  let (_, rest) := nextRes c.writeRes
  ⟨c.events ++ [.endChunked], rest⟩

def Conn.reply (c : Conn) (status : Nat) : Conn :=
  ⟨c.events ++ [.reply status], c.writeRes⟩

/-- Concatenated payload of the gather-write events of a trace: the bytes a
trace puts on the wire through `write_data`/`async_write`. -/
def bufsData : List (List Char) → List Char
  | [] => []
  | b :: r => b ++ bufsData r

def wireData : List WireEvent → List Char
  | [] => []
  | WireEvent.write bufs :: rest => bufsData bufs ++ wireData rest
  | _ :: rest => wireData rest

/-- The coroutine file collaborator (spec section 6): current contents, read
position, and the scripted error results of the coming `async_read` calls
(an exhausted script means reads keep succeeding). -/
structure CoroFile where
  data : List Char
  pos : Nat
  readErrs : List Bool
deriving DecidableEq, Repr

/-- Pop the next scripted read error; an exhausted script means no error. -/
def nextErr : List Bool → Bool × List Bool
  | [] => (false, [])
  | b :: r => (b, r)

/-- `async_read(buf, n)` returns an error flag and the bytes actually read,
which is the next `min n (size - pos)` bytes of the file. -/
def CoroFile.async_read (f : CoroFile) (n : Nat) : Bool × List Char × CoroFile :=
  let (e, rest) := nextErr f.readErrs
  if e then (true, [], ⟨f.data, f.pos, rest⟩)
  else
    let bytes := (f.data.drop f.pos).take n
    (false, bytes, ⟨f.data, f.pos + bytes.length, rest⟩)

def CoroFile.eof (f : CoroFile) : Bool := decide (f.data.length ≤ f.pos)

def CoroFile.seek (f : CoroFile) (off : Nat) : CoroFile := ⟨f.data, off, f.readErrs⟩

/-- The response object's fields touched by the handlers under scrutiny. -/
structure Response where
  status : Nat
  content : String
  delayed : Bool
  chunkedFmt : Bool
deriving DecidableEq, Repr

def Response.init : Response := ⟨200, "", false, false⟩

/-- build_range_header (source lines 666-686).  The status line always says
"OK" regardless of the numeric status; the content-range line is appended
when present (it carries its own trailing CRLF). -/
def build_range_header (mime filename file_size_str : String) (status : Nat)
    (content_range : String) : String :=
  "HTTP/1.1 " ++ toString status
    ++ " OK\r\nAccess-Control-Allow-origin: *\r\nAccept-Ranges: bytes\r\n"
    ++ (if content_range = "" then "" else content_range)
    ++ "Content-Disposition: attachment;filename=" ++ filename ++ "\r\n"
    ++ "Connection: keep-alive\r\n"
    ++ "Content-Type: " ++ mime ++ "\r\n"
    ++ "Content-Length: " ++ file_size_str ++ "\r\n\r\n"

/-- build_multiple_range_header (source lines 633-640). -/
def build_multiple_range_header (content_len : Nat) : String :=
  "HTTP/1.1 206 Partial Content\r\n"
    ++ "Content-Length: " ++ toString content_len ++ CRCF
    ++ "Content-Type: multipart/byteranges; boundary=" ++ BOUNDARY ++ TWO_CRCF

/-- build_part_heads (source lines 642-664): the per-part header strings and
the accumulated Content-Length (part headers, part bytes, one CRLF per part,
and finally `BOUNDARY.size() + 4`). -/
def build_part_heads (ranges : List (Nat × Nat)) (mime : String)
    (file_size_str : String) : List String × Nat :=
  let step := fun (acc : List String × Nat) (se : Nat × Nat) =>
    let part_header := "--" ++ BOUNDARY ++ CRCF
      ++ "Content-Type: " ++ mime ++ CRCF
      ++ "Content-Range: " ++ "bytes " ++ toString se.1 ++ "-" ++ toString se.2
      ++ "/" ++ file_size_str ++ TWO_CRCF
    (acc.1 ++ [part_header],
     acc.2 + part_header.length + (se.2 + 1 - se.1 + CRCF.length))
  let folded := ranges.foldl step ([], 0)
  (folded.1, folded.2 + BOUNDARY.length + 4)

/-- send_single_part (source lines 688-726), with an explicit fuel so the
definition is structurally recursive; `none` marks fuel exhaustion, and every
caller passes `part_size + 1`, which `send_single_part_fuel_enough` below
shows can never run out (each recursive call consumes at least one byte of
`part_size`).  Per the source, the requested `read_size` (not the number of
bytes actually read) is subtracted from `part_size`, and when `more` is
non-empty it is gather-written after every chunk of the part, not only after
the last one. -/
def send_single_part : Nat → CoroFile → Conn → Response → Nat → Nat →
    List Char → Option (Bool × CoroFile × Conn × Response)
  | 0, _, _, _, _, _, _ => none
  | fuel + 1, f, conn, resp, chunked_size, part_size, more =>
    let read_size := min part_size chunked_size
    if read_size = 0 then some (true, f, conn, resp)
    else
      match f.async_read read_size with
      | (true, _, f) =>
        let resp := { resp with status := 204 }
        let conn := conn.reply 204
        some (false, f, conn, resp)
      | (false, bytes, f) =>
        let part_size := part_size - read_size
        let (r, conn) :=
          if more.isEmpty then conn.write_data bytes
          else conn.async_write2 bytes more
        if r then send_single_part fuel f conn resp chunked_size part_size more
        else some (false, f, conn, resp)

/-- The chunked-transfer loop of the static handler (source lines 342-361):
read a chunk; a read error switches the status to 204 and replies; a failed
chunked write aborts; reaching eof emits the terminating zero-length chunk
via `end_chunked`.  Fuel `none` marks the diverging run that a zero
`chunked_size` on a non-empty file would produce. -/
def chunked_loop : Nat → CoroFile → Conn → Response → Nat →
    Option (CoroFile × Conn × Response)
  | 0, _, _, _, _ => none
  | fuel + 1, f, conn, resp, chunked_size =>
    match f.async_read chunked_size with
    | (true, _, f) =>
      let resp := { resp with status := 204 }
      let conn := conn.reply 204
      some (f, conn, resp)
    | (false, bytes, f) =>
      let (r, conn) := conn.write_chunked bytes
      if r = false then some (f, conn, resp)
      else if f.eof then some (f, conn.end_chunked, resp)
      else chunked_loop fuel f conn resp chunked_size

/-- The plain streaming loop of the no-Range, format=range path
(source lines 448-466). -/
def stream_loop : Nat → CoroFile → Conn → Response → Nat →
    Option (CoroFile × Conn × Response)
  | 0, _, _, _, _ => none
  | fuel + 1, f, conn, resp, chunked_size =>
    match f.async_read chunked_size with
    | (true, _, f) =>
      let resp := { resp with status := 204 }
      let conn := conn.reply 204
      some (f, conn, resp)
    | (false, bytes, f) =>
      let (r, conn) := conn.write_data bytes
      if r = false then some (f, conn, resp)
      else if f.eof then some (f, conn, resp)
      else stream_loop fuel f conn resp chunked_size

/-- The multipart loop of the static handler (source lines 415-435): for each
range write its part header, seek, and stream `end + 1 - start` bytes through
`send_single_part` with `more` = CRCF, or `MULTIPART_END` for the last part.
`none` on an exhausted heads list marks the out-of-bounds `multi_heads[i]`
access that a mismatched heads list would be in C++ (unreachable from the
handler, which builds one head per range). -/
def multipart_loop : List (Nat × Nat) → List String → CoroFile → Conn →
    Response → Nat → Option (Conn × Response)
  | [], _, _, conn, resp, _ => some (conn, resp)
  | se :: rs, heads, f, conn, resp, chunked_size =>
    match heads with
    | [] => none
    | h :: hs =>
      let (r, conn) := conn.write_data h.data
      if r = false then some (conn, resp)
      else
        let f := f.seek se.1
        let part_size := se.2 + 1 - se.1
        let more := if rs.isEmpty then MULTIPART_END.data else CRCF.data
        match send_single_part (part_size + 1) f conn resp chunked_size part_size more with
        | none => none
        | some (ok, f, conn, resp) =>
          if ok then multipart_loop rs hs f conn resp chunked_size
          else some (conn, resp)

/-- Lookup in `static_file_cache_` (an association list models the map). -/
def lookupCache (cache : List (String × String)) (k : String) : Option String :=
  match cache.find? (fun p => p.1 == k) with
  | none => none
  | some p => some p.2

/-- The characters after the first `=`, modelling
`range_str.find('=')` / `range_str.substr(pos + 1)` (source lines 364-366);
`none` when no `=` occurs. -/
def findEq : List Char → Option (List Char)
  | [] => none
  | c :: rest => if c = '=' then some rest else findEq rest

def splitEq (s : String) : Option String :=
  match findEq s.data with
  | none => none
  | some l => some (String.mk l)

/-- The GET handler that `set_static_res_dir` registers for one file
(source lines 302-468).  Parameters stand for the pieces of server state and
environment the lambda reads: the range parser collaborator, the file cache,
`format_type_`, `chunked_size_`, a fuel bound for the two read-until-eof
loops, the mime type and file name, the file's current on-disk contents
(`none` = `async_open` fails / the file is gone), the `Range` header value
(`""` when absent), and the scripted read/write results.  The result is the
final connection trace and response; `none` marks runs the C++ leaves
undefined (fuel exhaustion of a diverging loop, `fs::file_size` on a missing
file, the `assert(!ranges.empty())`). -/
def staticHandler (parseRanges : String → Nat → Option (List (Nat × Nat)))
    (cache : List (String × String)) (formatType : FileRespFormat)
    (chunked_size fuel : Nat) (mime fname : String) (disk : Option (List Char))
    (rangeStr : String) (readErrs writeRes : List Bool) :
    Option (Conn × Response) :=
  let conn : Conn := ⟨[], writeRes⟩
  let resp : Response := Response.init
  match lookupCache cache fname with
  | some body =>
    match disk with
    | none => none
    | some d =>
      let range_header := build_range_header mime fname (toString d.length) 200 ""
      let resp := { resp with delayed := true }
      let (_, conn) := conn.async_write2 range_header.data body.data
      some (conn, resp)
  | none =>
    match disk with
    | none => some (conn, { resp with status := 404, content := fname ++ "not found" })
    | some d =>
      let f : CoroFile := ⟨d, 0, readErrs⟩
      let file_size := d.length
      if formatType = FileRespFormat.chunked ∧ rangeStr = "" then
        let resp := { resp with chunkedFmt := true }
        let (ok, conn) := conn.begin_chunked
        if ok = false then some (conn, resp)
        else
          match chunked_loop fuel f conn resp chunked_size with
          | none => none
          | some (_, conn, resp) => some (conn, resp)
      else
        match splitEq rangeStr with
        | some afterEq =>
          match parseRanges afterEq file_size with
          | none => some (conn, { resp with status := 416 })
          | some ranges =>
            match ranges with
            | [] => none
            | [se] =>
              let f := f.seek se.1
              let part_size := se.2 + 1 - se.1
              let status := if part_size = file_size then 200 else 206
              let content_range := "Content-Range: bytes " ++ toString se.1 ++ "-"
                ++ toString se.2 ++ "/" ++ toString file_size ++ CRCF
              let range_header := build_range_header mime fname
                (toString part_size) status content_range
              let resp := { resp with delayed := true }
              let (r, conn) := conn.write_data range_header.data
              if r = false then some (conn, resp)
              else
                match send_single_part (part_size + 1) f conn resp chunked_size part_size [] with
                | none => none
                | some (_, _, conn, resp) => some (conn, resp)
            | _ :: _ :: _ =>
              let resp := { resp with delayed := true }
              let file_size_str := toString file_size
              let heads_len := build_part_heads ranges mime file_size_str
              let range_header := build_multiple_range_header heads_len.2
              let (r, conn) := conn.write_data range_header.data
              if r = false then some (conn, resp)
              else multipart_loop ranges heads_len.1 f conn resp chunked_size
        | none =>
          let range_header := build_range_header mime fname (toString file_size) 200 ""
          let resp := { resp with delayed := true }
          let (r, conn) := conn.write_data range_header.data
          if r = false then some (conn, resp)
          else
            match stream_loop fuel f conn resp chunked_size with
            | none => none
            | some (_, conn, resp) => some (conn, resp)

/-- Whether `s.find("..") != std::string::npos`: some suffix of `s` starts
with `".."`. -/
def containsDotDot : List Char → Bool
  | [] => false
  | c :: rest =>
    match rest with
    | [] => false
    | c2 :: _ => if c = '.' ∧ c2 = '.' then true else containsDotDot rest

/-- Whether `std::filesystem::path(s).has_root_path()` holds on POSIX: the
path begins with the directory separator. -/
def hasRootPath (s : String) : Bool :=
  match s.data with
  | [] => false
  | c :: _ => c = '/'

/-- Character-wise `replace_all(relative_path, "\\", "/")` of source
lines 286-288 (the pattern is a single character, so the replacement is
pointwise; the C++ guards it with a `find` that, by precedence, always runs
the replacement — the observable result is the same). -/
def replaceBackslash : List Char → List Char
  | [] => []
  | c :: rest => (if c = '\\' then '/' else c) :: replaceBackslash rest

/-- Outcome of `set_static_res_dir`'s configuration phase: either
`std::exit(code)` fired before anything was registered, or the routes that
were registered (as the list of URIs handed to `set_http_handler`). -/
inductive ConfigResult where
  | exited (code : Nat)
  | registered (staticDir routerPath : String) (routes : List String)
deriving DecidableEq, Repr

/-- URI built for one scanned file (source lines 283-298): the path relative
to the static dir, separators normalised, prefixed by `/<router-path>` when a
URI suffix was configured. -/
def makeUri (staticDir routerPath : String) (file : String) : String :=
  let relative := String.mk (replaceBackslash (file.data.drop staticDir.length))
  if routerPath = "" then relative else "/" ++ routerPath ++ relative

/-- The configuration phase of `set_static_res_dir` (source lines 244-300):
validate the two paths (a `..` component or a rooted path calls
`std::exit(1)`), then record the router path and static dir (the current
working directory when the file path is empty; `make_preferred` is the
identity on POSIX) and register one GET route per scanned regular file.
The directory scan itself is the filesystem's business and enters as the
`files` parameter. -/
def set_static_res_dir (uri_suffix file_path : String) (cwd : String)
    (files : List String) : ConfigResult :=
  let has_double_dot := containsDotDot file_path.data || containsDotDot uri_suffix.data
  if hasRootPath file_path || hasRootPath uri_suffix || has_double_dot then
    ConfigResult.exited 1
  else
    let router_path := uri_suffix
    let static_dir := if file_path = "" then cwd else file_path
    ConfigResult.registered static_dir router_path
      (files.map (makeUri static_dir router_path))

/-- The accept errors the source distinguishes (lines 539-546): the two codes
that mean the acceptor was closed, and everything else. -/
inductive AcceptErr where
  | operationAborted
  | badDescriptor
  | other (code : Nat)
deriving DecidableEq, Repr

/-- The only `std::errc` value the accept loop returns. -/
inductive Errc where
  | operationCanceled
deriving DecidableEq, Repr

/-- Observable state of the acceptor loop: the monotonic connection-id
counter, the connection table's keys, whether the `acceptor_close_waiter_`
one-shot was signalled, and how many accept errors were logged. -/
structure AcceptorState where
  connId : Nat
  connections : List Nat
  closedSignalled : Bool
  logged : Nat
deriving DecidableEq, Repr

/-- The accept loop (source lines 525-584) driven by a script of accept
outcomes (`none` = a socket was accepted, `some e` = the accept failed with
`e`).  Every error is logged; `operation_aborted` and `bad_descriptor`
signal the one-shot and return `operation_canceled`; any other error
continues the loop.  A successful accept takes the next connection id,
inserts it into the table, and (abstractly) spawns the driver.  An exhausted
script leaves the loop suspended in `async_accept` (`none` return value). -/
def acceptLoop : List (Option AcceptErr) → AcceptorState →
    AcceptorState × Option Errc
  | [], st => (st, none)
  | some e :: rest, st =>
    let st := { st with logged := st.logged + 1 }
    if e = AcceptErr.operationAborted ∨ e = AcceptErr.badDescriptor then
      ({ st with closedSignalled := true }, some Errc.operationCanceled)
    else acceptLoop rest st
  | none :: rest, st =>
    let id := st.connId + 1
    acceptLoop rest { st with connId := id, connections := st.connections ++ [id] }

/-- Observable server state touched by `stop()` (source lines 96-127).
`outCtx` is `out_ctx_ != nullptr`, `thdJoinable` is `thd_.joinable()`;
`closedConns` accumulates the ids whose connection got `close(false)`. -/
structure ServerState where
  outCtx : Bool
  thdJoinable : Bool
  stopTimer : Bool
  timerCancelled : Bool
  acceptorClosed : Bool
  connections : List Nat
  closedConns : List Nat
  poolStopped : Bool
deriving DecidableEq, Repr

/-- stop() (source lines 96-127): no-op unless in borrowed-context mode or
the owned pool's thread is joinable; otherwise stop the reaper timer, close
the acceptor (and wait on the one-shot), close every connection and clear the
table, then either stop and join the owned pool or drop the borrowed
context pointer. -/
def stop (s : ServerState) : ServerState :=
  if s.outCtx = false ∧ s.thdJoinable = false then s
  else
    let s1 : ServerState :=
      { s with stopTimer := true, timerCancelled := true,
               acceptorClosed := true,
               closedConns := s.closedConns ++ s.connections,
               connections := [] }
    if s1.outCtx = false then { s1 with poolStopped := true, thdJoinable := false }
    else { s1 with outCtx := false }

namespace Proxy

/-- The incoming request as the proxy handler reads it. -/
structure ProxyRequest where
  method : String
  body : String
  headers : List (String × String)
deriving DecidableEq, Repr

/-- The request the upstream client is asked to send. -/
structure SentRequest where
  path : String
  method : String
  body : String
  headers : List (String × String)
deriving DecidableEq, Repr

/-- What the upstream client collaborator returns (spec section 6). -/
structure UpstreamResult where
  status : Nat
  resp_headers : List (String × String)
  resp_body : String

/-- The outgoing response as the proxy handler mutates it. -/
structure ProxyResponse where
  headers : List (String × String)
  status : Nat
  content : String
  delayed : Bool
  replied : Bool
deriving DecidableEq, Repr

/-- The proxy handler's `reply` (source lines 728-750).  Lines 732-735
declare an empty `req_headers` map and then iterate that same (empty) map to
populate itself, so the upstream request is issued with no headers at all;
then every upstream response header is added to the outgoing response, the
status and body view are set, `reply()` is performed, and the response is
switched to delayed mode.  The upstream client enters as a function from the
request actually sent to its result; the returned pair is (request sent
upstream, final response). -/
def reply (client : SentRequest → UpstreamResult) (url_path : String)
    (req : ProxyRequest) (response : ProxyResponse) : SentRequest × ProxyResponse :=
  let req_headers : List (String × String) := []
  let req_headers := req_headers.foldl (fun m kv => m ++ [kv]) req_headers
  let sent : SentRequest := ⟨url_path, req.method, req.body, req_headers⟩
  let result := client sent
  let response := result.resp_headers.foldl
    (fun r kv => { r with headers := r.headers ++ [kv] }) response
  let response := { response with status := result.status, content := result.resp_body }
  let response := { response with replied := true }
  let response := { response with delayed := true }
  (sent, response)

end Proxy

/-! Theorems.  Helper lemmas shared between claims come first, then one
theorem per claim (with its witness or counterexample). -/

/-- The cache-hit branch of the static handler (source lines 309-318), fully
computed: a single gather-write of the 200 header — whose Content-Length is
the file's current on-disk size — followed by the cached body, with the
response in delayed mode, whatever the Range header says. -/
theorem staticHandler_cache_hit (pr : String → Nat → Option (List (Nat × Nat)))
    (cache : List (String × String)) (ft : FileRespFormat) (cs fuel : Nat)
    (mime fname : String) (d : List Char) (rangeStr : String)
    (re we : List Bool) (body : String)
    (h : lookupCache cache fname = some body) :
    staticHandler pr cache ft cs fuel mime fname (some d) rangeStr re we
      = some (⟨[WireEvent.write [(build_range_header mime fname (toString d.length) 200 "").data,
                  body.data]], (nextRes we).2⟩,
              ⟨200, "", true, false⟩) := by
  simp [staticHandler, h, Conn.async_write2, Response.init]

/-- Folding header insertion over a list appends the list to the headers. -/
theorem addHeaders_foldl (l : List (String × String)) (r : Proxy.ProxyResponse) :
    l.foldl (fun r kv => { r with headers := r.headers ++ [kv] }) r
      = { r with headers := r.headers ++ l } := by
  induction l generalizing r with
  | nil => simp
  | cons kv rest ih => simp [List.foldl_cons, ih]

/-- Streaming lemma for `send_single_part` with an empty `more`: with enough
fuel, successful reads and writes, and the requested window inside the file,
it returns `true` and writes exactly the `part_size` bytes of the file that
start at the current position. -/
theorem send_single_part_stream_spec :
    ∀ (fuel ps : Nat) (fd : List Char) (fp : Nat) (ev0 : List WireEvent)
      (resp : Response) (cs : Nat),
    0 < cs → fp + ps ≤ fd.length → ps < fuel →
    ∃ evs, send_single_part fuel ⟨fd, fp, []⟩ ⟨ev0, []⟩ resp cs ps []
        = some (true, ⟨fd, fp + ps, []⟩, ⟨ev0 ++ evs, []⟩, resp)
      ∧ wireData evs = (fd.drop fp).take ps := by
  intro fuel
  induction fuel with
  | zero => intro ps fd fp ev0 resp cs hcs hle hf; omega
  | succ fuel ih =>
    intro ps fd fp ev0 resp cs hcs hle hf
    by_cases hps : ps = 0
    · subst hps
      refine ⟨[], ?_, by simp [wireData]⟩
      simp [send_single_part, Nat.zero_min]
    · have hrs : ¬ (min ps cs = 0) := by omega
      have hrs1 : 1 ≤ min ps cs := by omega
      have hlen : ((fd.drop fp).take (min ps cs)).length = min ps cs := by
        simp [List.length_take, List.length_drop]
        omega
      obtain ⟨evs', heq, hdata⟩ :=
        ih (ps - min ps cs) fd (fp + min ps cs)
          (ev0 ++ [WireEvent.write [(fd.drop fp).take (min ps cs)]]) resp cs hcs
          (by omega) (by omega)
      refine ⟨WireEvent.write [(fd.drop fp).take (min ps cs)] :: evs', ?_, ?_⟩
      · simp only [send_single_part, CoroFile.async_read, nextErr,
          Conn.write_data, nextRes, List.isEmpty_nil, if_neg hrs]
        simp only [Bool.false_eq_true, if_false, if_true]
        rw [hlen, heq]
        have harith : fp + min ps cs + (ps - min ps cs) = fp + ps := by omega
        rw [harith]
        simp
      · simp only [wireData, bufsData, hdata, List.append_nil]
        have hsplit : ps = min ps cs + (ps - min ps cs) := by omega
        conv_rhs => rw [hsplit]
        rw [List.take_add, List.drop_drop]

/-- Termination and shape lemma for the chunked loop: with positive chunk
size, successful reads and writes, and enough fuel, the loop completes and
its trace ends with the terminating zero-length chunk event. -/
theorem chunked_loop_success_ends_zero :
    ∀ (fuel : Nat) (fd : List Char) (fp : Nat) (ev0 : List WireEvent)
      (resp : Response) (cs : Nat),
    0 < cs → fd.length - fp < fuel →
    ∃ f2 ev2, chunked_loop fuel ⟨fd, fp, []⟩ ⟨ev0, []⟩ resp cs
        = some (f2, ⟨ev2, []⟩, resp)
      ∧ ev2.getLast? = some WireEvent.endChunked := by
  intro fuel
  induction fuel with
  | zero => intro fd fp ev0 resp cs hcs hf; omega
  | succ fuel ih =>
    intro fd fp ev0 resp cs hcs hf
    have hlen : ((fd.drop fp).take cs).length = min cs (fd.length - fp) := by
      simp [List.length_take, List.length_drop]
    by_cases he : fd.length ≤ fp + min cs (fd.length - fp)
    · refine ⟨⟨fd, fp + min cs (fd.length - fp), []⟩,
        (ev0 ++ [WireEvent.chunk ((fd.drop fp).take cs)]) ++ [WireEvent.endChunked],
        ?_, by simp⟩
      simp only [chunked_loop, CoroFile.async_read, nextErr, Conn.write_chunked,
        nextRes, Conn.end_chunked, CoroFile.eof, hlen]
      simp [he]
    · have hfp : fp < fd.length := by omega
      obtain ⟨f2, ev2, heq, hlast⟩ :=
        ih fd (fp + min cs (fd.length - fp))
          (ev0 ++ [WireEvent.chunk ((fd.drop fp).take cs)]) resp cs hcs (by omega)
      refine ⟨f2, ev2, ?_, hlast⟩
      simp only [chunked_loop, CoroFile.async_read, nextErr, Conn.write_chunked,
        nextRes, CoroFile.eof, hlen]
      simp [he, heq]

/-- Claim C9: whenever `send_single_part` is invoked with `part_size = 0`,
the loop breaks before any read or write, so nothing at all is written on the
connection — no body bytes and no trailing delimiter (`more`) — the file and
response are untouched, and the coroutine returns `true`. -/
theorem send_single_part_zero_writes_nothing (fuel : Nat) (f : CoroFile)
    (conn : Conn) (resp : Response) (chunked_size : Nat) (more : List Char) :
    send_single_part (fuel + 1) f conn resp chunked_size 0 more
      = some (true, f, conn, resp) := by
  simp [send_single_part, Nat.zero_min]

/-- Claim C5: whenever the file-path argument or the URI-prefix argument of
`set_static_res_dir` contains `..` or has a root (absolute) prefix, the
configuration terminates the process via `std::exit` with a non-zero code,
and no route is registered (the `exited` outcome carries no routes). -/
theorem static_config_path_safety (uri_suffix file_path cwd : String)
    (files : List String)
    (h : containsDotDot file_path.data = true ∨ containsDotDot uri_suffix.data = true
       ∨ hasRootPath file_path = true ∨ hasRootPath uri_suffix = true) :
    ∃ c, set_static_res_dir uri_suffix file_path cwd files = ConfigResult.exited c
      ∧ c ≠ 0 := by
  refine ⟨1, ?_, one_ne_zero⟩
  unfold set_static_res_dir
  rcases h with h | h | h | h <;> simp [h]

/-- Witness for C5 at a concrete traversal path. -/
theorem static_config_path_safety_witness :
    containsDotDot "../www".data = true ∧
    ∃ c, set_static_res_dir "s" "../www" "/cwd" ["../www/a.txt"] = ConfigResult.exited c
      ∧ c ≠ 0 :=
  ⟨by decide,
   static_config_path_safety "s" "../www" "/cwd" ["../www/a.txt"] (Or.inl (by decide))⟩

/-- Claim C6: when an asynchronous accept fails with `operation_aborted` or
`bad_descriptor`, the accept loop signals the `acceptor_close_waiter_`
one-shot and returns `operation_canceled`; on any other accept error it logs
and keeps accepting (every error is logged first, matching source
lines 539-546). -/
theorem accept_error_dispatch (script : List (Option AcceptErr))
    (st : AcceptorState) (e : AcceptErr) :
    ((e = AcceptErr.operationAborted ∨ e = AcceptErr.badDescriptor) →
      acceptLoop (some e :: script) st
        = ({ st with logged := st.logged + 1, closedSignalled := true },
           some Errc.operationCanceled))
    ∧ (e ≠ AcceptErr.operationAborted → e ≠ AcceptErr.badDescriptor →
      acceptLoop (some e :: script) st
        = acceptLoop script { st with logged := st.logged + 1 }) := by
  constructor
  · intro h
    simp [acceptLoop, h]
  · intro h1 h2
    simp [acceptLoop, h1, h2]

/-- Witness for C6: a fatal accept error signals and cancels; a transient one
logs and continues. -/
theorem accept_error_dispatch_witness :
    acceptLoop [some AcceptErr.operationAborted] ⟨5, [1], false, 0⟩
      = (⟨5, [1], true, 1⟩, some Errc.operationCanceled) ∧
    acceptLoop [some (AcceptErr.other 13)] ⟨5, [1], false, 0⟩
      = acceptLoop [] ⟨5, [1], false, 1⟩ :=
  ⟨(accept_error_dispatch [] ⟨5, [1], false, 0⟩ AcceptErr.operationAborted).1
      (Or.inl rfl),
   (accept_error_dispatch [] ⟨5, [1], false, 0⟩ (AcceptErr.other 13)).2
      (by decide) (by decide)⟩

/-- Claim C7: a second `stop()` after a completed first call is a no-op — two
calls produce exactly the state one does — and after a first call that
performed the shutdown work (the server was in borrowed-context mode or the
owned thread was joinable) the connection table is empty and the acceptor is
closed.  The hypothesis records the constructor invariant that a
borrowed-context server never owns a joinable thread. -/
theorem stop_twice_eq_stop_once (s : ServerState)
    (h : s.outCtx = true → s.thdJoinable = false) :
    stop (stop s) = stop s ∧
    ((s.outCtx = true ∨ s.thdJoinable = true) →
      (stop s).connections = [] ∧ (stop s).acceptorClosed = true) := by
  rcases hc : s.outCtx <;> rcases ht : s.thdJoinable
  · constructor
    · simp [stop, hc, ht]
    · intro hst
      rcases hst with hst | hst <;> cases hst
  · constructor
    · simp [stop, hc, ht]
    · intro _
      simp [stop, hc, ht]
  · constructor
    · simp [stop, hc, ht]
    · intro _
      simp [stop, hc, ht]
  · exact absurd (h hc) (by simp [ht])

/-- Witness for C7 on a started owned-mode server holding two connections. -/
theorem stop_twice_eq_stop_once_witness :
    stop (stop ⟨false, true, false, false, false, [7, 8], [], false⟩)
        = stop ⟨false, true, false, false, false, [7, 8], [], false⟩ ∧
    (stop ⟨false, true, false, false, false, [7, 8], [], false⟩).connections = [] ∧
    (stop ⟨false, true, false, false, false, [7, 8], [], false⟩).acceptorClosed = true := by
  have h := stop_twice_eq_stop_once ⟨false, true, false, false, false, [7, 8], [], false⟩
    (by intro hx; cases hx)
  exact ⟨h.1, h.2 (Or.inr rfl)⟩

/-- Claim C1 counterexample: at a concrete incoming request carrying the
header `X-Token: abc`, the proxy handler's upstream request carries no
headers at all, so the claim that every incoming request header is forwarded
is false (the loop at source lines 733-735 iterates the empty map it is
trying to populate). -/
theorem proxy_drops_request_headers :
    (Proxy.reply (fun _ => ⟨200, [], ""⟩) "/p"
        ⟨"GET", "payload", [("X-Token", "abc")]⟩ ⟨[], 200, "", false, false⟩).1.headers = []
    ∧ ("X-Token", "abc")
        ∈ (⟨"GET", "payload", [("X-Token", "abc")]⟩ : Proxy.ProxyRequest).headers
    ∧ ("X-Token", "abc")
        ∉ (Proxy.reply (fun _ => ⟨200, [], ""⟩) "/p"
            ⟨"GET", "payload", [("X-Token", "abc")]⟩ ⟨[], 200, "", false, false⟩).1.headers := by
  refine ⟨rfl, by simp, by simp [Proxy.reply]⟩

/-- Claim C1 (amended): the proxy handler issues the upstream request with
the incoming request's method and body but with an empty header set — no
incoming request header is forwarded — and it copies every upstream response
header onto the outgoing response, sets the upstream status and body, and
performs the reply (then switches the response to delayed mode). -/
theorem proxy_forwards_method_body_no_headers
    (client : Proxy.SentRequest → Proxy.UpstreamResult) (url_path : String)
    (req : Proxy.ProxyRequest) (resp0 : Proxy.ProxyResponse) :
    (Proxy.reply client url_path req resp0).1
        = ⟨url_path, req.method, req.body, []⟩
    ∧ (Proxy.reply client url_path req resp0).2
        = { resp0 with
              headers := resp0.headers
                ++ (client ⟨url_path, req.method, req.body, []⟩).resp_headers,
              status := (client ⟨url_path, req.method, req.body, []⟩).status,
              content := (client ⟨url_path, req.method, req.body, []⟩).resp_body,
              replied := true, delayed := true } := by
  constructor
  · rfl
  · simp [Proxy.reply, addHeaders_foldl]

/-- Claim C4: on a cache hit the handler emits exactly one gather-write,
consisting of the 200 status header — whose Content-Length is the file's
total on-disk size — followed by the cached body, and puts the response in
delayed mode; the result is the same whatever `Range` header the request
carries, i.e. the Range is ignored on the cached path. -/
theorem cache_hit_single_gather_write (pr : String → Nat → Option (List (Nat × Nat)))
    (cache : List (String × String)) (ft : FileRespFormat) (cs fuel : Nat)
    (mime fname : String) (d : List Char) (rangeStr : String)
    (re we : List Bool) (body : String)
    (hcache : lookupCache cache fname = some body) :
    staticHandler pr cache ft cs fuel mime fname (some d) rangeStr re we
      = some (⟨[WireEvent.write [(build_range_header mime fname (toString d.length) 200 "").data,
                  body.data]], (nextRes we).2⟩,
              ⟨200, "", true, false⟩)
    ∧ ∀ rangeStr2 : String,
        staticHandler pr cache ft cs fuel mime fname (some d) rangeStr re we
          = staticHandler pr cache ft cs fuel mime fname (some d) rangeStr2 re we := by
  constructor
  · exact staticHandler_cache_hit pr cache ft cs fuel mime fname d rangeStr re we body hcache
  · intro rangeStr2
    rw [staticHandler_cache_hit pr cache ft cs fuel mime fname d rangeStr re we body hcache,
        staticHandler_cache_hit pr cache ft cs fuel mime fname d rangeStr2 re we body hcache]

/-- Witness for C4: a cached `a.txt` of 5 bytes whose on-disk copy has grown
to 7 bytes, requested with a Range header. -/
theorem cache_hit_single_gather_write_witness :
    lookupCache [("a.txt", "hello")] "a.txt" = some "hello" ∧
    (staticHandler (fun _ _ => none) [("a.txt", "hello")] FileRespFormat.range 10 0
        "text/plain" "a.txt" (some "hello!!".data) "bytes=2-5" [] []
      = some (⟨[WireEvent.write [(build_range_header "text/plain" "a.txt"
                  (toString ("hello!!".data.length)) 200 "").data, "hello".data]], []⟩,
              ⟨200, "", true, false⟩)
     ∧ ∀ rangeStr2 : String,
        staticHandler (fun _ _ => none) [("a.txt", "hello")] FileRespFormat.range 10 0
            "text/plain" "a.txt" (some "hello!!".data) "bytes=2-5" [] []
          = staticHandler (fun _ _ => none) [("a.txt", "hello")] FileRespFormat.range 10 0
            "text/plain" "a.txt" (some "hello!!".data) rangeStr2 [] []) :=
  ⟨by decide,
   cache_hit_single_gather_write (fun _ _ => none) [("a.txt", "hello")]
     FileRespFormat.range 10 0 "text/plain" "a.txt" "hello!!".data "bytes=2-5" [] []
     "hello" (by decide)⟩

set_option maxRecDepth 8192 in
/-- Claim C10: on a cache hit the Content-Length string placed into the
response header is `std::to_string(fs::file_size(file_name))` — the file's
on-disk size at request time — while the body sent is the cached string, so
the advertised length matches the body only when the on-disk size still
equals the cached body's length; when the size is unchanged the emitted
header coincides with the one advertising the body's true length, and the
header genuinely depends on that number (two different sizes yield two
different headers, shown at 7 versus 5). -/
theorem cache_hit_content_length_is_disk_size
    (pr : String → Nat → Option (List (Nat × Nat)))
    (cache : List (String × String)) (ft : FileRespFormat) (cs fuel : Nat)
    (mime fname : String) (d : List Char) (rangeStr : String)
    (re we : List Bool) (body : String)
    (hcache : lookupCache cache fname = some body) :
    (staticHandler pr cache ft cs fuel mime fname (some d) rangeStr re we).map
        (fun p => p.1.events)
      = some [WireEvent.write [(build_range_header mime fname (toString d.length) 200 "").data,
          body.data]]
    ∧ (d.length = body.data.length →
        build_range_header mime fname (toString d.length) 200 ""
          = build_range_header mime fname (toString body.data.length) 200 "")
    ∧ build_range_header "text/plain" "a.txt" (toString 7) 200 ""
        ≠ build_range_header "text/plain" "a.txt" (toString 5) 200 "" := by
  refine ⟨?_, fun hlen => by rw [hlen], by decide⟩
  rw [staticHandler_cache_hit pr cache ft cs fuel mime fname d rangeStr re we body hcache]
  rfl

/-- Witness for C10: cached body `hello` (5 bytes) while the on-disk file has
7 bytes; the advertised Content-Length comes from the 7. -/
theorem cache_hit_content_length_is_disk_size_witness :
    lookupCache [("a.txt", "hello")] "a.txt" = some "hello" ∧
    ((staticHandler (fun _ _ => none) [("a.txt", "hello")] FileRespFormat.range 10 0
          "text/plain" "a.txt" (some "hello!!".data) "" [] []).map
        (fun p => p.1.events)
      = some [WireEvent.write [(build_range_header "text/plain" "a.txt"
          (toString ("hello!!".data.length)) 200 "").data, "hello".data]]
     ∧ ("hello!!".data.length = "hello".data.length →
        build_range_header "text/plain" "a.txt" (toString ("hello!!".data.length)) 200 ""
          = build_range_header "text/plain" "a.txt" (toString ("hello".data.length)) 200 "")
     ∧ build_range_header "text/plain" "a.txt" (toString 7) 200 ""
        ≠ build_range_header "text/plain" "a.txt" (toString 5) 200 "") :=
  ⟨by decide,
   cache_hit_content_length_is_disk_size (fun _ _ => none) [("a.txt", "hello")]
     FileRespFormat.range 10 0 "text/plain" "a.txt" "hello!!".data "" [] []
     "hello" (by decide)⟩

set_option maxRecDepth 16384 in
/-- Claim C2, evaluated at the failing input: file `abcd`, ranges
`0-1,2-3`, `chunked_size = 1`.  `build_part_heads` advertises a
Content-Length of 207 (one CRLF per part), but the emitted body after the
multipart header is 246 bytes long, because `send_single_part` gather-writes
the `more` delimiter (CRLF, or MULTIPART_END for the last part) after every
chunk-sized read of a part rather than once per part; so the response body
does not have the claimed shape and the advertised length is wrong. -/
theorem multipart_advertised_length_mismatch :
    (build_part_heads [(0, 1), (2, 3)] "m" "4").2 = 207
    ∧ (staticHandler
          (fun s n => if s = "0-1,2-3" ∧ n = 4 then some [(0, 1), (2, 3)] else none)
          [] FileRespFormat.range 1 0 "m" "f" (some "abcd".data) "bytes=0-1,2-3" [] []).map
          (fun p => (p.1.events.head?, (wireData p.1.events.tail).length))
        = some (some (WireEvent.write [(build_multiple_range_header 207).data]), 246)
    ∧ (246 : Nat) ≠ 207 := by
  decide

set_option maxRecDepth 8192 in
/-- Claim C8 counterexample: on the chunked path with the second file read
failing, the emitted trace is `begin_chunked`, one data chunk, then a 204
reply — it never contains the terminating zero-length chunk, so a chunked
response does not always end with one. -/
theorem chunked_read_error_omits_zero_chunk :
    staticHandler (fun _ _ => none) [] FileRespFormat.chunked 1 3 "m" "f"
        (some "ab".data) "" [false, true] []
      = some (⟨[WireEvent.beginChunked, WireEvent.chunk ['a'], WireEvent.reply 204], []⟩,
              ⟨204, "", false, true⟩)
    ∧ [WireEvent.beginChunked, WireEvent.chunk ['a'], WireEvent.reply 204].getLast?
        ≠ some WireEvent.endChunked
    ∧ WireEvent.endChunked
        ∉ [WireEvent.beginChunked, WireEvent.chunk ['a'], WireEvent.reply 204] := by
  decide

/-- Claim C8 (amended): when every file read and every chunked write
succeeds, a chunked static-file response ends with the terminating
zero-length chunk (`end_chunked`); a mid-stream read error instead switches
to a 204 reply without terminating the chunked stream, and a failed write
aborts the handler. -/
theorem chunked_success_path_ends_zero_chunk
    (pr : String → Nat → Option (List (Nat × Nat))) (cache : List (String × String))
    (cs : Nat) (mime fname : String) (d : List Char)
    (hcs : 0 < cs) (hmiss : lookupCache cache fname = none) :
    ∃ conn2 resp2,
      staticHandler pr cache FileRespFormat.chunked cs (d.length + 1) mime fname
          (some d) "" [] []
        = some (conn2, resp2)
      ∧ conn2.events.getLast? = some WireEvent.endChunked := by
  obtain ⟨f2, ev2, heq, hlast⟩ :=
    chunked_loop_success_ends_zero (d.length + 1) d 0 [WireEvent.beginChunked]
      ⟨200, "", false, true⟩ cs hcs (by omega)
  refine ⟨⟨ev2, []⟩, ⟨200, "", false, true⟩, ?_, hlast⟩
  simp [staticHandler, hmiss, Conn.begin_chunked, nextRes, Response.init, heq]

/-- Witness for C8 (amended) on the two-byte file `ab` with chunk size 1. -/
theorem chunked_success_path_ends_zero_chunk_witness :
    (0 : Nat) < 1 ∧ lookupCache [] "f" = none ∧
    ∃ conn2 resp2,
      staticHandler (fun _ _ => none) [] FileRespFormat.chunked 1 ("ab".data.length + 1)
          "m" "f" (some "ab".data) "" [] []
        = some (conn2, resp2)
      ∧ conn2.events.getLast? = some WireEvent.endChunked :=
  ⟨by decide, by decide,
   chunked_success_path_ends_zero_chunk (fun _ _ => none) [] 1 "m" "f" "ab".data
     (by decide) (by decide)⟩

/-- Claim C3: for a non-cached file of size S whose Range header parses to
the single valid range [a, b], the handler writes the single-part header —
which carries `Content-Range: bytes a-b/S` and status 200 when b+1−a = S,
206 otherwise, and advertises Content-Length b+1−a — and then streams as the
body exactly the b+1−a bytes of the file starting at offset a. -/
theorem single_range_response
    (pr : String → Nat → Option (List (Nat × Nat))) (cache : List (String × String))
    (ft : FileRespFormat) (cs fuel : Nat) (mime fname : String) (d : List Char)
    (rangeStr afterEq : String) (a b : Nat)
    (hmiss : lookupCache cache fname = none)
    (hsplit : splitEq rangeStr = some afterEq)
    (hparse : pr afterEq d.length = some [(a, b)])
    (hab : a ≤ b) (hb : b < d.length) (hcs : 0 < cs) :
    ∃ evs,
      staticHandler pr cache ft cs fuel mime fname (some d) rangeStr [] []
        = some (⟨WireEvent.write [(build_range_header mime fname (toString (b + 1 - a))
                    (if b + 1 - a = d.length then 200 else 206)
                    ("Content-Range: bytes " ++ toString a ++ "-" ++ toString b ++ "/"
                      ++ toString d.length ++ CRCF)).data] :: evs, []⟩,
               ⟨200, "", true, false⟩)
      ∧ wireData evs = (d.drop a).take (b + 1 - a)
      ∧ (wireData evs).length = b + 1 - a := by
  have hne : rangeStr ≠ "" := by
    intro h
    rw [h] at hsplit
    simp [splitEq, findEq] at hsplit
  obtain ⟨evs, heq, hdata⟩ :=
    send_single_part_stream_spec (b + 1 - a + 1) (b + 1 - a) d a
      [WireEvent.write [(build_range_header mime fname (toString (b + 1 - a))
          (if b + 1 - a = d.length then 200 else 206)
          ("Content-Range: bytes " ++ toString a ++ "-" ++ toString b ++ "/"
            ++ toString d.length ++ CRCF)).data]]
      ⟨200, "", true, false⟩ cs hcs (by omega) (by omega)
  refine ⟨evs, ?_, hdata, ?_⟩
  · have harith : a + (b + 1 - a) = b + 1 := by omega
    rw [harith] at heq
    simp [staticHandler, hmiss, hsplit, hparse, Conn.write_data, nextRes,
      CoroFile.seek, Response.init, heq, harith]
    intro _ h2
    exact absurd h2 hne
  · rw [hdata]
    simp [List.length_take, List.length_drop]
    omega

/-- Witness for C3: `Range: bytes=2-5` on the ten-byte file `0123456789`
yields the 206 single-part response with body `2345`. -/
theorem single_range_response_witness :
    lookupCache [] "a.txt" = none ∧
    splitEq "bytes=2-5" = some "2-5" ∧
    (fun (s : String) (n : Nat) => if s = "2-5" ∧ n = 10 then some [(2, 5)] else none)
        "2-5" "0123456789".data.length = some [(2, 5)] ∧
    (2 : Nat) ≤ 5 ∧ (5 : Nat) < "0123456789".data.length ∧ (0 : Nat) < 10 ∧
    ∃ evs,
      staticHandler
          (fun (s : String) (n : Nat) => if s = "2-5" ∧ n = 10 then some [(2, 5)] else none)
          [] FileRespFormat.range 10 0 "text/plain" "a.txt" (some "0123456789".data)
          "bytes=2-5" [] []
        = some (⟨WireEvent.write [(build_range_header "text/plain" "a.txt"
                    (toString (5 + 1 - 2))
                    (if 5 + 1 - 2 = "0123456789".data.length then 200 else 206)
                    ("Content-Range: bytes " ++ toString 2 ++ "-" ++ toString 5 ++ "/"
                      ++ toString "0123456789".data.length ++ CRCF)).data] :: evs, []⟩,
               ⟨200, "", true, false⟩)
      ∧ wireData evs = ("0123456789".data.drop 2).take (5 + 1 - 2)
      ∧ (wireData evs).length = 5 + 1 - 2 :=
  ⟨by decide, by decide, by decide, by decide, by decide, by decide,
   single_range_response
     (fun (s : String) (n : Nat) => if s = "2-5" ∧ n = 10 then some [(2, 5)] else none)
     [] FileRespFormat.range 10 0 "text/plain" "a.txt" "0123456789".data
     "bytes=2-5" "2-5" 2 5 (by decide) (by decide) (by decide) (by decide)
     (by decide) (by decide)⟩

end Cinatra
